import Mathlib

/-!
# NanoporeMet — verification of the coverage/statistics aggregation pipeline

Shallow embedding of the core data transformations of the repository
(`coverage.py` and `nanoporemet.py`): the read aggregator, the depth-table
reducer, the summary-metrics reducer, the per-sample classification runner
and the classification aggregator.  External tools (minimap2, samtools,
kraken2) are modelled as oracles; file systems are modelled as association
lists from names (or path-component lists) to contents; Python floats are
idealised as rationals; a Python runtime exception is an `Except` error.
-/

/-- Python runtime exception kinds relevant to this pipeline.
`emptyInput` is the error kind named by the specification for the
empty-depth-table case; the code itself never raises it. -/
inductive PyError where
  | zeroDivisionError : PyError
  | fileNotFoundError : PyError
  | valueError : PyError
  | emptyInput : PyError
deriving DecidableEq, Repr

/-- Python float division `a / b`: raises `ZeroDivisionError` when the
denominator is zero, otherwise returns the exact quotient (floats are
idealised as rationals). -/
def pyDiv (a b : ℚ) : Except PyError ℚ :=
  if b = 0 then .error .zeroDivisionError else .ok (a / b)

/-- Model of the Python string method `endswith(suffix)`. -/
def pyEndsWith (s suffix : String) : Bool := suffix.data.isSuffixOf s.data

/-- Model of the Python string method `startswith(pre)`. -/
def pyStartsWith (s pre : String) : Bool := pre.data.isPrefixOf s.data

/-- One row of the tab-separated depth table produced by `samtools depth -a`
(`coverage.py`, `plot_coverage` parses `columns[0..2]`): reference name,
position, depth. -/
structure DepthRow where
  ref : String
  pos : ℤ
  depth : ℤ
deriving DecidableEq, Repr

/-- The metric computation of `plot_coverage` (`coverage.py` lines 51-60):
`data['y']` is the list of parsed depths;
`horizontal_coverage = sum(1 for val in data['y'] if val > 0) / len(data['y'])`,
`vertical_coverage = sum(data['y']) / len(data['y'])`.
The chart-rendering side effects are omitted; the function returns the two
metrics.  There is no emptiness guard in the source: on an empty table the
divisions raise `ZeroDivisionError`. -/
def plot_coverage (rows : List DepthRow) : Except PyError (ℚ × ℚ) := do
  let ys : List ℤ := rows.map (fun r => r.depth)
  let horizontal ← pyDiv ((ys.filter (fun v => decide (0 < v))).length : ℚ) (ys.length : ℚ)
  let vertical ← pyDiv (((ys.sum : ℤ) : ℚ)) ((ys.length : ℚ))
  return (horizontal, vertical)

/-! ## Read aggregator (`coverage.py`, `concatenate_fastq`) -/

/-- A directory tree: each file is a path (list of components relative to
the directory) together with its raw byte content. -/
structure Dir where
  files : List (List String × List ℕ)
deriving DecidableEq, Repr

/-- Whether `concatenated.fastq` already exists at the top level of the
directory (the idempotency check of `concatenate_fastq`). -/
def concatExists (d : Dir) : Bool :=
  d.files.any (fun f => f.1 == ["concatenated.fastq"])

/-- Whether the file name (last path component) ends in `.fastq.gz`. -/
def fastqGzName (p : List String) : Bool :=
  match p.getLast? with
  | some n => pyEndsWith n ".fastq.gz"
  | none => false

/-- `glob.glob('**/*.fastq.gz', recursive=True)`: matches files at any
depth whose name ends in `.fastq.gz`; like the Python glob, a `*` wildcard
never matches a leading dot, so hidden files and files inside hidden
directories are excluded. -/
def globFastqGz (p : List String) : Bool :=
  fastqGzName p && p.all (fun c => !(pyStartsWith c "."))

/-- `concatenate_fastq` (`coverage.py` lines 23-37): if
`concatenated.fastq` exists, skip all work and report reuse (second
component `true`); otherwise write the byte-concatenation of every
globbed `*.fastq.gz` file, in traversal order, to `concatenated.fastq`.
Returns the directory after the call and whether the existing file was
reused. -/
def concatenate_fastq (d : Dir) : Dir × Bool :=
  if concatExists d then (d, true)
  else
    (⟨d.files ++ [(["concatenated.fastq"],
       ((d.files.filter (fun f => globFastqGz f.1)).map Prod.snd).flatten)]⟩, false)

/-- Content of the file at `p` in `d` (empty if absent). -/
def lookupFile (d : Dir) (p : List String) : List ℕ :=
  ((d.files.find? (fun f => f.1 == p)).map Prod.snd).getD []

/-- The bytes of `concatenated.fastq` after running `concatenate_fastq`. -/
def concatResult (d : Dir) : List ℕ :=
  lookupFile (concatenate_fastq d).1 ["concatenated.fastq"]

/-- The read-aggregation step of `run_kraken` (`nanoporemet.py` lines
91-99): collects the files of `os.listdir(directory)` — top level only,
hidden files included — whose name ends in `.fastq.gz` and, when there is
at least one, concatenates their raw bytes; with none it only prints a
notice (`none`).  No existing `concatenated.fastq` is ever reused: the
file is rebuilt unconditionally. -/
def run_kraken_concat (d : Dir) : Option (List ℕ) :=
  let fq := d.files.filter (fun f => f.1.length == 1 && fastqGzName f.1)
  if fq.isEmpty then none
  else some ((fq.map Prod.snd).flatten)

/-! ## Summary-metrics reducer (`nanoporemet.py`, `plot_histogram` and
`generate_sequencing_summary_pdf`) -/

/-- Insert a value into a sorted list (ascending). -/
def insertSorted (x : ℚ) : List ℚ → List ℚ
  | [] => [x]
  | y :: ys => if x ≤ y then x :: y :: ys else y :: insertSorted x ys

/-- Ascending sort of a list of rationals. -/
def sortQ (l : List ℚ) : List ℚ := l.foldr insertSorted []

/-- `pandas.Series.median()`: middle element of the sorted values when the
count is odd, mean of the two middle elements when even.  (On an empty
series pandas yields NaN; the pipeline never takes a median of an empty
column slice, and this model returns 0 there.) -/
def pandasMedian (l : List ℚ) : ℚ :=
  let s := sortQ l
  if l.length % 2 = 1 then s.getD (l.length / 2) 0
  else (s.getD (l.length / 2 - 1) 0 + s.getD (l.length / 2) 0) / 2

/-- The Python built-in `round(x)`: round half to even, as an integer. -/
def pythonRound (q : ℚ) : ℤ :=
  let f := ⌊q⌋
  let r := q - (f : ℚ)
  if r < 1 / 2 then f
  else if 1 / 2 < r then f + 1
  else if f % 2 = 0 then f else f + 1

/-- The Python call `round(x, 2)`: round half to even at two decimal places. -/
def pythonRound2 (q : ℚ) : ℚ := (pythonRound (q * 100) : ℚ) / 100

/-- The median displayed by `plot_histogram` (`nanoporemet.py` lines
11-12): `round(median_value)` when the column is
`sequence_length_template`, otherwise `round(median_value, 2)`. -/
def rounded_median (column_name : String) (data : List ℚ) : ℚ :=
  if column_name == "sequence_length_template"
  then (pythonRound (pandasMedian data) : ℚ)
  else pythonRound2 (pandasMedian data)

/-- State of the analysis directory as `generate_sequencing_summary_pdf`
sees it: whether `sequencing_summary.pdf` already exists, the files
matching `sequencing_summary_*.txt`, and the outcome of
`pd.read_csv` on the first match (an oracle for the external table). -/
structure SummaryDir where
  pdfExists : Bool
  summaryFiles : List String
  readResult : Except PyError (List (List String))
deriving Repr

/-- Outcome of `generate_sequencing_summary_pdf`. -/
inductive SummaryOutcome where
  | alreadyCreated : SummaryOutcome
  | notYetAvailable : SummaryOutcome
  | generated : SummaryOutcome
deriving DecidableEq, Repr

/-- `generate_sequencing_summary_pdf` (`nanoporemet.py` lines 24-41): if
the PDF already exists, report that and return; if no
`sequencing_summary_*.txt` file matches, print "not available yet" and
return normally (no exception); otherwise read the table and render the
histograms (any read failure propagates). -/
def generate_sequencing_summary_pdf (s : SummaryDir) : Except PyError SummaryOutcome :=
  if s.pdfExists then .ok .alreadyCreated
  else if s.summaryFiles.isEmpty then .ok .notYetAvailable
  else
    match s.readResult with
    | .error e => .error e
    | .ok _ => .ok .generated

/-! ## Per-sample classification runner and aggregator (`nanoporemet.py`,
`run_kraken` and `main`) -/

/-- Content of a file in a sample directory: raw bytes, or a parsed
tab-separated table whose first column is the sample label. -/
inductive FileData where
  | bytes : List ℕ → FileData
  | table : List (String × List String) → FileData
deriving DecidableEq, Repr

/-- Raw bytes of a file (`open(file, 'rb').read()`); tables are only ever
read back via `pd.read_csv`, never as raw bytes, in the pipeline. -/
def dataBytes : FileData → List ℕ
  | .bytes b => b
  | .table _ => []

/-- Write (create or overwrite) file `n` with content `c`. -/
def writeF (files : List (String × FileData)) (n : String) (c : FileData) :
    List (String × FileData) :=
  if files.any (fun f => f.1 == n)
  then files.map (fun f => if f.1 == n then (n, c) else f)
  else files ++ [(n, c)]

/-- `os.remove`-style deletion of file `n`. -/
def removeF (files : List (String × FileData)) (n : String) :
    List (String × FileData) :=
  files.filter (fun f => !(f.1 == n))

/-- Tagging of a classifier report (`nanoporemet.py` lines 107-112):
prepending the directory name as the first column of every row. -/
def tagReport (title : String) (lines : List (List String)) :
    List (String × List String) :=
  lines.map (fun line => (title, line))

/-- `run_kraken` (`nanoporemet.py` lines 86-117) acting on the files of
one sample directory named `name`.  `classifier` is the external kraken2
oracle mapping the concatenated read bytes to the report rows, `stream`
to the per-read classification stream.  With no `*.fastq.gz` file the
function only prints a notice and changes nothing.  Otherwise it
concatenates the fastq bytes, runs the classifier (writing
`concatenated.kraken` and `{name}.kreport.txt`), rewrites the report with
the sample label prepended to every row, and removes the transient
`concatenated.fastq` (which had been written before the classifier ran). -/
def run_kraken (classifier : List ℕ → List (List String))
    (stream : List ℕ → List ℕ) (name : String)
    (files : List (String × FileData)) : List (String × FileData) :=
  let fq := files.filter (fun f => pyEndsWith f.1 ".fastq.gz")
  if fq.isEmpty then files
  else
    let cat := (fq.map (fun f => dataBytes f.2)).flatten
    let written := writeF files "concatenated.fastq" (.bytes cat)
    let afterKraken := writeF (writeF written "concatenated.kraken" (.bytes (stream cat)))
      (name ++ ".kreport.txt") (.table (tagReport name (classifier cat)))
    removeF afterKraken "concatenated.fastq"

/-- `pd.read_csv(path, sep='\t', header=None)` on a per-sample report:
fails with `FileNotFoundError` when the file is absent, with a parse
error when the file is not a table. -/
def read_kreport (files : List (String × FileData)) (fname : String) :
    Except PyError (List (String × List String)) :=
  match files.find? (fun f => f.1 == fname) with
  | none => .error .fileNotFoundError
  | some (_, .table t) => .ok t
  | some (_, .bytes _) => .error .valueError

/-- One entry of `os.listdir(fastq_pass_directory)`: its name, whether it
is a directory, and (when it is) its files. -/
structure FpEntry where
  name : String
  isDir : Bool
  files : List (String × FileData)
deriving Repr

/-- The per-sample loop of `main` (`nanoporemet.py` lines 142-151): for
each subdirectory that is non-empty, run kraken and read back the
per-sample report (a read failure aborts the whole loop, as an uncaught
exception would); empty subdirectories are skipped with a notice. -/
def main_loop (classifier : List ℕ → List (List String))
    (stream : List ℕ → List ℕ) :
    List FpEntry → Except PyError (List (List (String × List String)))
  | [] => .ok []
  | e :: rest =>
    if e.isDir && !e.files.isEmpty then
      match read_kreport (run_kraken classifier stream e.name e.files)
          (e.name ++ ".kreport.txt") with
      | .error err => .error err
      | .ok df =>
        match main_loop classifier stream rest with
        | .error err => .error err
        | .ok dfs => .ok (df :: dfs)
    else
      main_loop classifier stream rest

/-- `combined_kreport` (`nanoporemet.py` line 154): concatenation of the
per-sample report tables. -/
def combined_kreport (dfs : List (List (String × List String))) :
    List (String × List String) :=
  dfs.flatten

/-- `combined_kreport_final` (`nanoporemet.py` lines 157-161): the
combined table followed by a full copy of it with the first column
overwritten to the sentinel `"all"`. -/
def combined_kreport_final (dfs : List (List (String × List String))) :
    List (String × List String) :=
  combined_kreport dfs ++ (combined_kreport dfs).map (fun r => ("all", r.2))

/-! ## Reference discovery (`coverage.py`, `find_reference_fasta`) -/

/-- `find_reference_fasta` (`coverage.py` lines 11-21) applied to the
`os.listdir()` result: keep files ending in `.fasta` that do not start
with `._`; zero candidates is `FileNotFoundError`, more than one is
`ValueError`, otherwise the single candidate is returned. -/
def find_reference_fasta (files : List String) : Except PyError String :=
  let reference_files := files.filter
    (fun f => pyEndsWith f ".fasta" && !(pyStartsWith f "._"))
  if reference_files.isEmpty then .error .fileNotFoundError
  else if 1 < reference_files.length then .error .valueError
  else .ok (reference_files.headD "")

/-! ## Theorems -/

lemma plot_coverage_eq (rows : List DepthRow) (h : rows ≠ []) :
    plot_coverage rows =
      .ok (((rows.filter (fun r => decide (0 < r.depth))).length : ℚ) / (rows.length : ℚ),
           ((((rows.map (fun r => r.depth)).sum : ℤ) : ℚ)) / (rows.length : ℚ)) := by
  have hne : ((rows.length : ℚ)) ≠ 0 := by
    simpa using h
  have hfl : ((rows.map (fun r => r.depth)).filter (fun v => decide (0 < v))).length
      = (rows.filter (fun r => decide (0 < r.depth))).length := by
    simp [← List.countP_eq_length_filter, List.countP_map]
    rfl
  simp only [plot_coverage, pyDiv, List.length_map, if_neg hne, hfl]
  rfl

/-- C1: for every non-empty depth table, `plot_coverage` computes
horizontal coverage `k/N` (where `k` counts positions with depth `> 0`
and `N` is the row count) and vertical coverage `sum(depths)/N`. -/
theorem c1_plot_coverage_metrics (rows : List DepthRow) (h : rows ≠ []) :
    plot_coverage rows =
      .ok (((rows.filter (fun r => decide (0 < r.depth))).length : ℚ) / (rows.length : ℚ),
           ((((rows.map (fun r => r.depth)).sum : ℤ) : ℚ)) / (rows.length : ℚ)) :=
  plot_coverage_eq rows h

/-- C1 witness: a two-row table, one row of depth 0 and one of depth 3,
has horizontal coverage 1/2 and vertical coverage 3/2. -/
theorem c1_plot_coverage_metrics_witness :
    plot_coverage [⟨"r", 1, 0⟩, ⟨"r", 2, 3⟩] = .ok (1 / 2, 3 / 2) := by
  have hres := c1_plot_coverage_metrics [⟨"r", 1, 0⟩, ⟨"r", 2, 3⟩] (by simp)
  rw [hres]
  norm_num

/-- C2 counterexample: on the empty depth table, `plot_coverage` fails
with the unguarded division's `ZeroDivisionError`, not with an explicit
`EmptyInput` error. -/
theorem c2_counterexample :
    plot_coverage ([] : List DepthRow) = .error .zeroDivisionError ∧
    plot_coverage ([] : List DepthRow) ≠ .error .emptyInput := by
  refine ⟨rfl, fun hc => ?_⟩
  rw [show plot_coverage ([] : List DepthRow) = .error .zeroDivisionError from rfl] at hc
  simp at hc

/-- C2 (amended): on an empty depth table the reducer fails — by raising
`ZeroDivisionError` from the unguarded division, there being no explicit
`EmptyInput` guard — and it never returns a metric value there (no NaN,
no silent division by zero); on every non-empty table it returns the
metrics. -/
theorem c2_empty_table_zero_division (rows : List DepthRow) :
    (rows = [] → plot_coverage rows = .error .zeroDivisionError) ∧
    (rows ≠ [] → ∃ m : ℚ × ℚ, plot_coverage rows = .ok m) := by
  constructor
  · rintro rfl
    rfl
  · intro h
    exact ⟨_, plot_coverage_eq rows h⟩

/-- C2 witness: the amended theorem applied to the empty table. -/
theorem c2_empty_table_zero_division_witness :
    plot_coverage ([] : List DepthRow) = .error .zeroDivisionError :=
  (c2_empty_table_zero_division []).1 rfl

lemma concatExists_after (d : Dir) : concatExists (concatenate_fastq d).1 = true := by
  by_cases h : concatExists d
  · simp [concatenate_fastq, h]
  · rw [concatenate_fastq, if_neg h]
    simp [concatExists, List.any_append]

/-- C5: read aggregation is idempotent — if `concatenated.fastq` already
exists, `concatenate_fastq` leaves the directory untouched and reports
reuse; consequently a second invocation on any directory performs no file
writes and leaves the combined-read bytes identical. -/
theorem c5_concatenate_fastq_idempotent (d : Dir) :
    (concatExists d = true → concatenate_fastq d = (d, true)) ∧
    concatenate_fastq (concatenate_fastq d).1 = ((concatenate_fastq d).1, true) := by
  constructor
  · intro h
    simp [concatenate_fastq, h]
  · have h2 := concatExists_after d
    set X := (concatenate_fastq d).1 with hX
    rw [concatenate_fastq, if_pos h2]

/-- C5 witness: a directory already containing `concatenated.fastq` is
returned unchanged with the reuse flag set. -/
theorem c5_concatenate_fastq_idempotent_witness :
    concatenate_fastq ⟨[(["concatenated.fastq"], [9])]⟩ =
      (⟨[(["concatenated.fastq"], [9])]⟩, true) :=
  (c5_concatenate_fastq_idempotent ⟨[(["concatenated.fastq"], [9])]⟩).1 (by decide)

/-- C4 counterexample: the two aggregation code paths are not
behaviourally equivalent. -/
theorem c4_counterexample :
    (concatResult ⟨[(["sub", "a.fastq.gz"], [7])]⟩ = [7] ∧
     run_kraken_concat ⟨[(["sub", "a.fastq.gz"], [7])]⟩ = none) ∧
    (concatResult ⟨[(["concatenated.fastq"], [1]), (["a.fastq.gz"], [2])]⟩ = [1] ∧
     run_kraken_concat ⟨[(["concatenated.fastq"], [1]), (["a.fastq.gz"], [2])]⟩ = some [2]) :=
  ⟨⟨by decide, by decide⟩, ⟨by decide, by decide⟩⟩

/-- C4 (amended): equivalence only under side conditions. -/
theorem c4_aggregation_equivalence_amended (d : Dir)
    (h0 : concatExists d = false)
    (h1 : ∀ f ∈ d.files, fastqGzName f.1 = true →
      f.1.length = 1 ∧ f.1.all (fun c => !(pyStartsWith c ".")) = true)
    (h2 : d.files.filter (fun f => globFastqGz f.1) ≠ []) :
    run_kraken_concat d = some (concatResult d) := by
  have hfilter : d.files.filter (fun f => f.1.length == 1 && fastqGzName f.1)
      = d.files.filter (fun f => globFastqGz f.1) := by
    refine List.filter_congr fun f hf => ?_
    by_cases hg : fastqGzName f.1
    · obtain ⟨hl, ha⟩ := h1 f hf hg
      simp [globFastqGz, hg, hl, ha]
    · simp [globFastqGz, hg]
  have hnone : d.files.find? (fun f => f.1 == ["concatenated.fastq"]) = none := by
    rw [List.find?_eq_none]
    exact List.any_eq_false.mp h0
  have hres : concatResult d
      = ((d.files.filter (fun f => globFastqGz f.1)).map Prod.snd).flatten := by
    rw [concatResult, concatenate_fastq, if_neg (by simp [h0])]
    rw [lookupFile, List.find?_append]
    simp [hnone]
  rw [hres, run_kraken_concat]
  simp only [hfilter]
  rw [if_neg (by simpa [List.isEmpty_iff] using h2)]

/-- C4 witness: with a single top-level read fragment and no pre-existing
combined file, the two aggregation paths agree. -/
theorem c4_aggregation_equivalence_amended_witness :
    run_kraken_concat ⟨[(["a.fastq.gz"], [5])]⟩ =
      some (concatResult ⟨[(["a.fastq.gz"], [5])]⟩) :=
  c4_aggregation_equivalence_amended ⟨[(["a.fastq.gz"], [5])]⟩
    (by decide) (by decide) (by decide)

lemma mem_combined_kreport_label (samples : List (String × List (List String)))
    (r : String × List String)
    (hr : r ∈ combined_kreport (samples.map (fun s => tagReport s.1 s.2))) :
    r.1 ∈ samples.map Prod.fst := by
  rw [combined_kreport] at hr
  obtain ⟨df, hdf, hrdf⟩ := List.mem_flatten.mp hr
  obtain ⟨s, hs, rfl⟩ := List.mem_map.mp hdf
  obtain ⟨line, _, rfl⟩ := List.mem_map.mp hrdf
  exact List.mem_map.mpr ⟨s, hs, rfl⟩

/-- C3: for per-sample tagged reports totalling M rows, the final table
has 2M rows; row-for-row, the first M rows are the per-sample rows and
the second M rows duplicate them under the sentinel "all"; each taxon
row value occurs exactly twice as often in the final table as among the
per-sample rows; and every label is "all" or a sample name. -/
theorem c3_classification_aggregator (samples : List (String × List (List String))) :
    (combined_kreport_final (samples.map (fun s => tagReport s.1 s.2))).length
        = 2 * (combined_kreport (samples.map (fun s => tagReport s.1 s.2))).length ∧
    (combined_kreport_final (samples.map (fun s => tagReport s.1 s.2))).take
        (combined_kreport (samples.map (fun s => tagReport s.1 s.2))).length
      = combined_kreport (samples.map (fun s => tagReport s.1 s.2)) ∧
    (combined_kreport_final (samples.map (fun s => tagReport s.1 s.2))).drop
        (combined_kreport (samples.map (fun s => tagReport s.1 s.2))).length
      = (combined_kreport (samples.map (fun s => tagReport s.1 s.2))).map
          (fun r => ("all", r.2)) ∧
    (∀ t : List String,
      (combined_kreport_final (samples.map (fun s => tagReport s.1 s.2))).countP
          (fun r => r.2 == t)
        = 2 * (combined_kreport (samples.map (fun s => tagReport s.1 s.2))).countP
            (fun r => r.2 == t)) ∧
    (combined_kreport_final (samples.map (fun s => tagReport s.1 s.2))).all
      (fun r => r.1 == "all" || (samples.map Prod.fst).contains r.1) = true := by
  refine ⟨?_, ?_, ?_, ?_, ?_⟩
  · simp [combined_kreport_final, two_mul]
  · exact List.take_left _ _
  · exact List.drop_left _ _
  · intro t
    show ((combined_kreport _ ++ _).countP _) = _
    rw [List.countP_append, List.countP_map, two_mul]
    rfl
  · rw [List.all_eq_true]
    intro r hr
    rcases List.mem_append.mp hr with h | h
    · have hm := mem_combined_kreport_label samples r h
      obtain ⟨s, hs, heq⟩ := List.mem_map.mp hm
      simp
      refine Or.inr ⟨s.2, ?_⟩
      rw [← heq]
      simpa using hs
    · obtain ⟨r₀, _, rfl⟩ := List.mem_map.mp h
      simp

/-- C6: the displayed median is integer-rounded for the sequence-length
column and 2-decimal-rounded for the quality-score column; in particular
the quality slice [1, 2, 3] displays 2 and the length slice
[100, 200, 301] displays 200. -/
theorem c6_rounded_median :
    (∀ data : List ℚ, rounded_median "sequence_length_template" data
        = (pythonRound (pandasMedian data) : ℚ)) ∧
    (∀ data : List ℚ, rounded_median "mean_qscore_template" data
        = pythonRound2 (pandasMedian data)) ∧
    rounded_median "mean_qscore_template" [1, 2, 3] = 2 ∧
    rounded_median "sequence_length_template" [100, 200, 301] = 200 := by
  refine ⟨fun data => ?_, fun data => ?_, ?_, ?_⟩
  · simp [rounded_median]
  · rw [rounded_median, if_neg (by decide)]
  · norm_num [rounded_median, pandasMedian, sortQ, insertSorted, pythonRound2, pythonRound]
  · norm_num [rounded_median, pandasMedian, sortQ, insertSorted, pythonRound]

/-- C7: when no `sequencing_summary_*.txt` table is present (and the PDF
has not been generated before), the reducer returns normally, reporting
"not yet available" instead of raising. -/
theorem c7_summary_not_yet_available (s : SummaryDir)
    (h1 : s.pdfExists = false) (h2 : s.summaryFiles = []) :
    generate_sequencing_summary_pdf s = .ok .notYetAvailable := by
  rw [generate_sequencing_summary_pdf, if_neg (by simp [h1]), if_pos (by simp [h2])]

/-- C7 witness: the not-yet-available outcome on a directory with no
summary table and no prior PDF. -/
theorem c7_summary_not_yet_available_witness :
    generate_sequencing_summary_pdf ⟨false, [], .ok []⟩ = .ok .notYetAvailable :=
  c7_summary_not_yet_available ⟨false, [], .ok []⟩ rfl rfl

/-- C8: an empty sample subdirectory is skipped: it contributes no
classification rows and the loop continues exactly as if the entry were
absent (no abort). -/
theorem c8_empty_subdir_skipped (classifier : List ℕ → List (List String))
    (stream : List ℕ → List ℕ) (e : FpEntry) (rest : List FpEntry)
    (h : e.files = []) :
    main_loop classifier stream (e :: rest) = main_loop classifier stream rest := by
  simp [main_loop, h]

/-- C8 witness: a loop over a single empty subdirectory succeeds with no
rows. -/
theorem c8_empty_subdir_skipped_witness :
    main_loop (fun _ => []) (fun _ => []) [⟨"sample01", true, []⟩]
      = main_loop (fun _ => []) (fun _ => []) [] :=
  c8_empty_subdir_skipped (fun _ => []) (fun _ => []) ⟨"sample01", true, []⟩ [] rfl

/-- C10: a non-empty sample subdirectory with no `.fastq.gz` file gets no
per-sample report written (`run_kraken` changes nothing), and — when no
stale report file is lying around — the aggregator's read of the report
fails with `FileNotFoundError`, aborting the whole loop (unlike the skip
of an empty subdirectory). -/
theorem c10_no_fastq_subdir_aborts (classifier : List ℕ → List (List String))
    (stream : List ℕ → List ℕ) (e : FpEntry) (rest : List FpEntry)
    (hdir : e.isDir = true) (hne : e.files ≠ [])
    (hnofq : e.files.filter (fun f => pyEndsWith f.1 ".fastq.gz") = [])
    (hnorep : e.files.find? (fun f => f.1 == e.name ++ ".kreport.txt") = none) :
    run_kraken classifier stream e.name e.files = e.files ∧
    main_loop classifier stream (e :: rest) = .error .fileNotFoundError := by
  have hrk : run_kraken classifier stream e.name e.files = e.files := by
    rw [run_kraken]
    simp [hnofq]
  refine ⟨hrk, ?_⟩
  have hread : read_kreport (run_kraken classifier stream e.name e.files)
      (e.name ++ ".kreport.txt") = .error .fileNotFoundError := by
    rw [hrk, read_kreport, hnorep]
  simp [main_loop, hdir, hne, hread]

/-- C10 witness: a subdirectory holding only `readme.txt` aborts the
aggregation with `FileNotFoundError`. -/
theorem c10_no_fastq_subdir_aborts_witness :
    run_kraken (fun _ => []) (fun _ => []) "sample01" [("readme.txt", .bytes [1])]
      = [("readme.txt", .bytes [1])] ∧
    main_loop (fun _ => []) (fun _ => []) [⟨"sample01", true, [("readme.txt", .bytes [1])]⟩]
      = .error .fileNotFoundError :=
  c10_no_fastq_subdir_aborts (fun _ => []) (fun _ => [])
    ⟨"sample01", true, [("readme.txt", .bytes [1])]⟩ []
    rfl (by decide) (by decide) (by decide)

lemma filter_single_of (p : String → Bool) (files : List String) (real : String)
    (hmem : real ∈ files) (hcount : files.count real = 1) (hp : p real = true)
    (hothers : ∀ f ∈ files, f ≠ real → p f = false) :
    files.filter p = [real] := by
  induction files with
  | nil => cases hmem
  | cons a l ih =>
    by_cases ha : a = real
    · subst ha
      rw [List.filter_cons_of_pos hp]
      have hnot : a ∉ l := by
        rw [List.count_cons_self] at hcount
        exact List.count_eq_zero.mp (by omega)
      have hnil : l.filter p = [] := by
        rw [List.filter_eq_nil_iff]
        intro f hf
        have hfne : f ≠ a := fun hfa => hnot (hfa ▸ hf)
        simp [hothers f (List.mem_cons_of_mem _ hf) hfne]
      rw [hnil]
    · have hpa : p a = false := hothers a (List.mem_cons_self a l) ha
      rw [List.filter_cons_of_neg (by simp [hpa])]
      refine ih (List.mem_of_ne_of_mem (fun hra => ha hra.symm) hmem) ?_
        (fun f hf hne => hothers f (List.mem_cons_of_mem _ hf) hne)
      rwa [List.count_cons_of_ne (fun hra => ha hra.symm)] at hcount

/-- C9: only names ending in `.fasta` and not starting with `._` count as
reference candidates: a listing with exactly one such name (however many
`._`-prefixed copies or non-fasta files appear alongside, each at most
mentioning the real file once) succeeds and returns that name. -/
theorem c9_find_reference_fasta (files : List String) (real : String)
    (hmem : real ∈ files) (hcount : files.count real = 1)
    (hfasta : pyEndsWith real ".fasta" = true)
    (hmeta : pyStartsWith real "._" = false)
    (hothers : ∀ f ∈ files, f ≠ real →
      pyEndsWith f ".fasta" = false ∨ pyStartsWith f "._" = true) :
    find_reference_fasta files = .ok real := by
  have hfilter : files.filter (fun f => pyEndsWith f ".fasta" && !(pyStartsWith f "._"))
      = [real] := by
    refine filter_single_of _ files real hmem hcount (by simp [hfasta, hmeta]) ?_
    intro f hf hne
    rcases hothers f hf hne with h | h <;> simp [h]
  rw [find_reference_fasta]
  simp [hfilter]

/-- C9 witness: a listing with a macOS metadata copy and a text file next
to the real reference returns the real reference. -/
theorem c9_find_reference_fasta_witness :
    find_reference_fasta ["._ref.fasta", "ref.fasta", "notes.txt"] = .ok "ref.fasta" :=
  c9_find_reference_fasta ["._ref.fasta", "ref.fasta", "notes.txt"] "ref.fasta"
    (by decide) (by decide) (by decide) (by decide) (by decide)
